import Mathlib

/-!
Verification of the job-offers dashboard and extraction script against its
specification.  The Python sources (src/app.py and src/scripts/extraction.py)
are shallowly embedded: pandas rows become structures with `Option` fields
(`none` models a missing value / NaN / Python `None`), Python code that can
raise becomes `Except Unit`, and the remote store and network are passed in
explicitly as data.
-/

set_option autoImplicit false

namespace JobOffers

/-! ## Data model

A posting row of the `analytics_job_offers` table, restricted to the columns
that the scoring, filtering and reconciliation code reads.  `found_skills` is
the JSON skill map (category name to list of matched skill strings); the
loader replaces every non-dict cell by an empty dict, so the field is either
a dict (modelled as an association list) or absent, and `none` here models a
row where the column is missing entirely (which the loader rules out, hence
scoring guards it with an `isinstance` test). -/
structure Posting where
  job_id : String
  work_titles_final : Option (List String)
  found_skills : Option (List (String × List String))
  seniority_category : Option String
  consulting_status : Option String
  schedule_type : Option String
  company_category : Option String
  activity_section_details : Option String
  company_name : Option String
  annual_min_salary : Option Int
  annual_max_salary : Option Int
  deriving Repr, DecidableEq

/-- The user profile dict built by the `Raw Data & Matching` page widgets:
`my_skills`, `target_roles`, `all_job_info`, `all_company_info` are lists of
strings, `min_salary` is an integer or absent (`profile.get('min_salary')`
returning `None`). -/
structure Profile where
  target_roles : List String
  my_skills : List String
  all_job_info : List String
  all_company_info : List String
  min_salary : Option Int
  deriving Repr, DecidableEq

/-! ## Match scoring (src/app.py, calculate_match_score, lines 84-115) -/

/-- Python `any(title in row['work_titles_final'] for title in profile.get('target_roles', []))`.
With a non-empty role list and a null (`NaN`) title field the membership test
`title in NaN` raises `TypeError`; with an empty role list `any` returns
`False` without ever touching the field. -/
def pyAnyTitleIn (roles : List String) (wtf : Option (List String)) : Except Unit Bool :=
  match roles with
  | [] => .ok false
  | _ :: _ =>
    match wtf with
    | none => .error ()
    | some ts => .ok (roles.any fun t => ts.contains t)

/-- Flattening of the skill map: `all_job_skills.update(category_skills)` over
all dict values.  (Python collects them into a set; only membership in the
result is ever used, so a list with duplicates is an equivalent model.) -/
def allJobSkills (fs : List (String × List String)) : List String :=
  fs.foldl (fun acc kv => acc ++ kv.2) []

/-- The loop `for skill in profile.get('my_skills', []): if skill in all_job_skills: score += 3`. -/
def skillLoop (jobSkills : List String) : List String → Int → Int
  | [], score => score
  | s :: rest, score =>
    skillLoop jobSkills rest (if jobSkills.contains s then score + 3 else score)

/-- Membership of a nullable cell in a list of strings: `NaN`/`None` never
equals any selected string (pandas `==`/`isin` semantics, and Python set
disjointness against a set of strings). -/
def optMem (o : Option String) (l : List String) : Bool :=
  match o with
  | some v => l.contains v
  | none => false

/-- `pd.notna(cell) and cell >= pref`: a null salary bound never satisfies the
comparison. -/
def salaryGe (o : Option Int) (pref : Int) : Bool :=
  match o with
  | some a => decide (a ≥ pref)
  | none => false

/-- src/app.py lines 84-115, `calculate_match_score(row, profile)` translated
statement by statement.  The result is `.error ()` exactly when the Python
code would raise (`TypeError` from `title in row['work_titles_final']` on a
null title list with a non-empty `target_roles`). -/
def calculate_match_score (row : Posting) (profile : Profile) : Except Unit Int :=
  match pyAnyTitleIn profile.target_roles row.work_titles_final with
  | .error e => .error e
  | .ok titleHit =>
    let score : Int := if titleHit then 10 else 0
    let score :=
      match row.found_skills with
      | some fs => skillLoop (allJobSkills fs) profile.my_skills score
      | none => score
    let jobInfo := [row.seniority_category, row.consulting_status, row.schedule_type]
    let score :=
      if !profile.all_job_info.isEmpty && jobInfo.any (fun o => optMem o profile.all_job_info) then
        score + 5
      else score
    let companyInfo := [row.company_category, row.activity_section_details]
    let score :=
      if !profile.all_company_info.isEmpty
          && companyInfo.any (fun o => optMem o profile.all_company_info) then
        score + 5
      else score
    let score :=
      match profile.min_salary with
      | some pref =>
        if pref > 0 then
          if salaryGe row.annual_min_salary pref then score + 10
          else if salaryGe row.annual_max_salary pref then score + 5
          else score
        else score
      | none => score
    .ok score

/-! ### The rule table of spec section 4.3, one definition per row -/

/-- Title match: +10 if any profile target title appears in the posting title list. -/
def titlePoints (row : Posting) (p : Profile) : Int :=
  if p.target_roles.any (fun t => (row.work_titles_final.getD []).contains t) then 10 else 0

/-- Skill match: +3 for each profile skill present in the union of the posting
skill-bearing fields. -/
def skillPoints (row : Posting) (p : Profile) : Int :=
  3 * (p.my_skills.countP (fun s =>
    match row.found_skills with
    | some fs => (allJobSkills fs).contains s
    | none => false) : Int)

/-- Job-info match: flat +5 if the profile job-info set intersects
{posting seniority, consulting status, schedule type}. -/
def jobInfoPoints (row : Posting) (p : Profile) : Int :=
  if optMem row.seniority_category p.all_job_info
      || optMem row.consulting_status p.all_job_info
      || optMem row.schedule_type p.all_job_info then 5 else 0

/-- Company-info match: flat +5 if the profile company-info set intersects
{posting company category, activity sector}. -/
def companyInfoPoints (row : Posting) (p : Profile) : Int :=
  if optMem row.company_category p.all_company_info
      || optMem row.activity_section_details p.all_company_info then 5 else 0

/-- Salary match: +10 if the profile minimum salary is set and positive and the
posting min salary reaches it, else +5 if the posting max salary reaches it
(the two rows are mutually exclusive). -/
def salaryPoints (row : Posting) (p : Profile) : Int :=
  match p.min_salary with
  | some pref =>
    if pref > 0 then
      if salaryGe row.annual_min_salary pref then 10
      else if salaryGe row.annual_max_salary pref then 5
      else 0
    else 0
  | none => 0

/-- The sum of the five independent rule contributions of section 4.3. -/
def specScore (row : Posting) (p : Profile) : Int :=
  titlePoints row p + skillPoints row p + jobInfoPoints row p
    + companyInfoPoints row p + salaryPoints row p

/-- src/app.py lines 574-578: the display-normalization maximum. -/
def max_possible_score (p : Profile) : Int :=
  let m : Int := 10 + 5 + 5
  let m := m + 3 * (p.my_skills.length : Int)
  let m := if (p.min_salary.getD 0) > 0 then m + 10 else m
  if m = 0 then 1 else m

theorem skillLoop_eq (js skills : List String) (init : Int) :
    skillLoop js skills init = init + 3 * (skills.countP js.contains : Int) := by
  induction skills generalizing init with
  | nil => simp [skillLoop]
  | cons s rest ih =>
    rw [skillLoop, ih, List.countP_cons]
    by_cases h : s ∈ js <;> simp [h] <;> ring

/-- The skill-loop output matches the skill rule of the table. -/
theorem skillLoop_eq_skillPoints (row : Posting) (p : Profile) (init : Int) :
    (match row.found_skills with
      | some fs => skillLoop (allJobSkills fs) p.my_skills init
      | none => init) = init + skillPoints row p := by
  cases h : row.found_skills with
  | none => simp [skillPoints, h]
  | some fs =>
    simp only [skillLoop_eq, skillPoints, h]
    norm_cast

/-- The guarded membership tests of the code match the intersection conditions
of the table: the Python truthiness guard on the profile list is redundant
because an empty list intersects nothing. -/
theorem jobInfo_cond_eq (row : Posting) (p : Profile) :
    (!p.all_job_info.isEmpty
      && [row.seniority_category, row.consulting_status, row.schedule_type].any
          (fun o => optMem o p.all_job_info))
    = (optMem row.seniority_category p.all_job_info
        || optMem row.consulting_status p.all_job_info
        || optMem row.schedule_type p.all_job_info) := by
  cases hp : p.all_job_info with
  | nil =>
    cases row.seniority_category <;> cases row.consulting_status <;>
      cases row.schedule_type <;> simp [optMem]
  | cons a l => simp [List.any, Bool.or_assoc]

theorem companyInfo_cond_eq (row : Posting) (p : Profile) :
    (!p.all_company_info.isEmpty
      && [row.company_category, row.activity_section_details].any
          (fun o => optMem o p.all_company_info))
    = (optMem row.company_category p.all_company_info
        || optMem row.activity_section_details p.all_company_info) := by
  cases hp : p.all_company_info with
  | nil =>
    cases row.company_category <;> cases row.activity_section_details <;> simp [optMem]
  | cons a l => simp [List.any, Bool.or_assoc]

/-- Central refinement lemma: on any row whose title list is an actual list
(the data-model invariant of spec section 3), the code computes exactly the
sum of the five rule contributions. -/
theorem calc_eq_specScore (row : Posting) (p : Profile)
    (h : row.work_titles_final.isSome) :
    calculate_match_score row p = .ok (specScore row p) := by
  obtain ⟨ts, hts⟩ := Option.isSome_iff_exists.mp h
  unfold calculate_match_score
  have htitle : pyAnyTitleIn p.target_roles row.work_titles_final
      = .ok (p.target_roles.any fun t => (row.work_titles_final.getD []).contains t) := by
    cases hr : p.target_roles with
    | nil => simp [pyAnyTitleIn]
    | cons r rs => rw [hts]; simp [pyAnyTitleIn]
  rw [htitle]
  simp only [specScore, jobInfo_cond_eq, companyInfo_cond_eq]
  rw [skillLoop_eq_skillPoints row p]
  have hsal : ∀ s : Int,
      (match p.min_salary with
        | some pref =>
          if pref > 0 then
            if salaryGe row.annual_min_salary pref then s + 10
            else if salaryGe row.annual_max_salary pref then s + 5
            else s
          else s
        | none => s) = s + salaryPoints row p := by
    intro s
    unfold salaryPoints
    cases p.min_salary with
    | none => simp
    | some pref =>
      by_cases hp : pref > 0
      · by_cases ha : salaryGe row.annual_min_salary pref = true
        · simp [hp, ha]
        · by_cases hb : salaryGe row.annual_max_salary pref = true <;> simp [hp, ha, hb]
      · simp [hp]
  simp only [hsal]
  unfold titlePoints jobInfoPoints companyInfoPoints
  by_cases h1 : (p.target_roles.any fun t => (row.work_titles_final.getD []).contains t) = true <;>
    by_cases h2 : (optMem row.seniority_category p.all_job_info
        || optMem row.consulting_status p.all_job_info
        || optMem row.schedule_type p.all_job_info) = true <;>
    by_cases h3 : (optMem row.company_category p.all_company_info
        || optMem row.activity_section_details p.all_company_info) = true <;>
    simp [h1, h2, h3]

/-- C1: on every posting row (of the data model, whose title-list field holds a
list) and every profile, `calculate_match_score` returns exactly the sum of
the five independent rule contributions of the section 4.3 table: +10 for a
title match, +3 per matching skill, a flat +5 for a job-info intersection, a
flat +5 for a company-info intersection, and +10/+5 for the two mutually
exclusive salary rules. -/
theorem C1_score_is_rule_sum (row : Posting) (p : Profile)
    (h : row.work_titles_final.isSome) :
    calculate_match_score row p
      = .ok (titlePoints row p + skillPoints row p + jobInfoPoints row p
        + companyInfoPoints row p + salaryPoints row p) :=
  calc_eq_specScore row p h

/-- Concrete instantiation of `C1_score_is_rule_sum`: a posting matching one
target role, one of two skills, a job-info tag and the partial salary rule. -/
theorem C1_score_is_rule_sum_witness :
    calculate_match_score
      { job_id := "j1", work_titles_final := some ["Data Analyst"],
        found_skills := some [("bi_tools", ["Tableau"])],
        seniority_category := some "Junior", consulting_status := none,
        schedule_type := none, company_category := none,
        activity_section_details := none, company_name := none,
        annual_min_salary := none, annual_max_salary := some 60000 }
      { target_roles := ["Data Analyst"], my_skills := ["Tableau", "SQL"],
        all_job_info := ["Junior"], all_company_info := [],
        min_salary := some 55000 }
      = .ok 23 := by
  rw [C1_score_is_rule_sum _ _ (by decide)]
  exact congrArg Except.ok (by decide)

deriving instance DecidableEq for Except

theorem titlePoints_bounds (row : Posting) (p : Profile) :
    0 ≤ titlePoints row p ∧ titlePoints row p ≤ 10 := by
  unfold titlePoints; split <;> norm_num

theorem skillPoints_bounds (row : Posting) (p : Profile) :
    0 ≤ skillPoints row p ∧ skillPoints row p ≤ 3 * (p.my_skills.length : Int) := by
  unfold skillPoints
  have h := List.countP_le_length (p := fun s =>
    match row.found_skills with
    | some fs => (allJobSkills fs).contains s
    | none => false) (l := p.my_skills)
  constructor
  · positivity
  · omega

theorem jobInfoPoints_bounds (row : Posting) (p : Profile) :
    0 ≤ jobInfoPoints row p ∧ jobInfoPoints row p ≤ 5 := by
  unfold jobInfoPoints; split <;> norm_num

theorem companyInfoPoints_bounds (row : Posting) (p : Profile) :
    0 ≤ companyInfoPoints row p ∧ companyInfoPoints row p ≤ 5 := by
  unfold companyInfoPoints; split <;> norm_num

theorem salaryPoints_bounds (row : Posting) (p : Profile) :
    0 ≤ salaryPoints row p
      ∧ salaryPoints row p ≤ (if (p.min_salary.getD 0) > 0 then 10 else 0) := by
  unfold salaryPoints
  cases hm : p.min_salary with
  | none => simp
  | some pref =>
    simp only [Option.getD_some]
    by_cases hp : pref > 0
    · simp only [hp, if_true]
      split <;> norm_num
      split <;> norm_num
    · simp [hp]

/-- The rule-table sum stays between 0 and the display maximum of
src/app.py lines 574-578. -/
theorem specScore_bounds (row : Posting) (p : Profile) :
    0 ≤ specScore row p ∧ specScore row p ≤ max_possible_score p := by
  obtain ⟨t0, t1⟩ := titlePoints_bounds row p
  obtain ⟨s0, s1⟩ := skillPoints_bounds row p
  obtain ⟨j0, j1⟩ := jobInfoPoints_bounds row p
  obtain ⟨c0, c1⟩ := companyInfoPoints_bounds row p
  obtain ⟨m0, m1⟩ := salaryPoints_bounds row p
  have hlen : (0 : Int) ≤ (p.my_skills.length : Int) := by positivity
  simp only [specScore, max_possible_score]
  by_cases hp : (p.min_salary.getD 0 : Int) > 0
  · rw [if_pos hp] at m1 ⊢
    rw [if_neg (by omega)]
    omega
  · rw [if_neg hp] at m1 ⊢
    rw [if_neg (by omega)]
    omega

/-- C2: on every posting row of the data model and every profile the computed
score is between 0 and the maximum achievable score
`10 + 5 + 5 + 3 * |my_skills| + (10 when min_salary is set and positive)`,
clamped to a minimum of 1. -/
theorem C2_score_in_bounds (row : Posting) (p : Profile)
    (h : row.work_titles_final.isSome) :
    ∃ s : Int, calculate_match_score row p = .ok s
      ∧ 0 ≤ s ∧ s ≤ max_possible_score p :=
  ⟨specScore row p, calc_eq_specScore row p h,
    (specScore_bounds row p).1, (specScore_bounds row p).2⟩

/-- Concrete instantiation of `C2_score_in_bounds`. -/
theorem C2_score_in_bounds_witness :
    ∃ s : Int,
      calculate_match_score
        { job_id := "j2", work_titles_final := some ["BI Analyst"],
          found_skills := some [("cloud", ["AWS"])],
          seniority_category := some "Senior/Expert", consulting_status := some "Consulting",
          schedule_type := some "Full-time", company_category := some "Startup",
          activity_section_details := some "Finance", company_name := some "Acme",
          annual_min_salary := some 40000, annual_max_salary := some 50000 }
        { target_roles := ["BI Analyst"], my_skills := ["AWS"],
          all_job_info := ["Consulting"], all_company_info := ["Finance"],
          min_salary := some 45000 }
      = .ok s
      ∧ 0 ≤ s
      ∧ s ≤ max_possible_score
          { target_roles := ["BI Analyst"], my_skills := ["AWS"],
            all_job_info := ["Consulting"], all_company_info := ["Finance"],
            min_salary := some 45000 } :=
  C2_score_in_bounds _ _ (by decide)

/-- A posting with no salary information beyond a shared maximum, used to show
the partial salary rule firing on the second of two otherwise identical rows. -/
def sharedMaxRow : Posting :=
  { job_id := "cx", work_titles_final := some [], found_skills := none,
    seniority_category := none, consulting_status := none, schedule_type := none,
    company_category := none, activity_section_details := none, company_name := none,
    annual_min_salary := none, annual_max_salary := some 70000 }

/-- A profile whose only active preference is a 55000 minimum salary. -/
def salaryOnlyProfile : Profile :=
  { target_roles := [], my_skills := [], all_job_info := [], all_company_info := [],
    min_salary := some 55000 }

/-- C3 counterexample: with profile minimum 55000, two rows identical except
that the first has `annual_min_salary = 60000` and the second has a null
`annual_min_salary` (so the second fails the min-salary rule) score 10 and 5:
the shared `annual_max_salary = 70000` lets the second row collect the
partial +5, so the first scores only 5 more, not 10. -/
theorem C3_counterexample :
    calculate_match_score { sharedMaxRow with annual_min_salary := some 60000 }
        salaryOnlyProfile = .ok 10
    ∧ calculate_match_score sharedMaxRow salaryOnlyProfile = .ok 5
    ∧ (10 : Int) - 5 ≠ 10 := by
  refine ⟨by decide, by decide, by decide⟩

/-- C3 amended: with profile minimum salary 55000, if the second row satisfies
neither salary rule (null-or-too-small min salary and null-or-too-small max
salary), then the row obtained from it by setting `annual_min_salary = 60000`
scores exactly 10 more; and the two salary rules are mutually exclusive: the
salary contribution of any posting is 10, 5 or 0, never 15. -/
theorem C3_salary_delta (r2 : Posting) (p : Profile)
    (hp : p.min_salary = some 55000)
    (hmin : salaryGe r2.annual_min_salary 55000 = false)
    (hmax : salaryGe r2.annual_max_salary 55000 = false)
    (ht : r2.work_titles_final.isSome) :
    (∃ s, calculate_match_score r2 p = .ok s
      ∧ calculate_match_score { r2 with annual_min_salary := some 60000 } p = .ok (s + 10))
    ∧ (∀ row : Posting, ∀ q : Profile,
        salaryPoints row q = 0 ∨ salaryPoints row q = 5 ∨ salaryPoints row q = 10) := by
  constructor
  · refine ⟨specScore r2 p, calc_eq_specScore r2 p ht, ?_⟩
    rw [calc_eq_specScore { r2 with annual_min_salary := some 60000 } p ht]
    have hsal2 : salaryPoints r2 p = 0 := by
      unfold salaryPoints; rw [hp]; simp [hmin, hmax]
    have hsal1 : salaryPoints { r2 with annual_min_salary := some 60000 } p = 10 := by
      unfold salaryPoints; rw [hp]; simp [salaryGe]
    have hT : titlePoints { r2 with annual_min_salary := some 60000 } p
        = titlePoints r2 p := rfl
    have hS : skillPoints { r2 with annual_min_salary := some 60000 } p
        = skillPoints r2 p := rfl
    have hJ : jobInfoPoints { r2 with annual_min_salary := some 60000 } p
        = jobInfoPoints r2 p := rfl
    have hC : companyInfoPoints { r2 with annual_min_salary := some 60000 } p
        = companyInfoPoints r2 p := rfl
    unfold specScore
    rw [hsal1, hsal2, hT, hS, hJ, hC]
    exact congrArg Except.ok (by ring)
  · intro row q
    unfold salaryPoints
    cases q.min_salary with
    | none => simp
    | some pref =>
      dsimp only
      split_ifs <;> simp

/-- The second row of the amended C3 scenario: min salary 54000 < 55000 and
max salary 54500 < 55000, so neither salary rule fires on it. -/
def lowSalaryRow : Posting :=
  { sharedMaxRow with annual_min_salary := some 54000, annual_max_salary := some 54500 }

/-- Concrete instantiation of `C3_salary_delta`. -/
theorem C3_salary_delta_witness :
    (∃ s, calculate_match_score lowSalaryRow salaryOnlyProfile = .ok s
      ∧ calculate_match_score { lowSalaryRow with annual_min_salary := some 60000 }
          salaryOnlyProfile = .ok (s + 10))
    ∧ (∀ row : Posting, ∀ q : Profile,
        salaryPoints row q = 0 ∨ salaryPoints row q = 5 ∨ salaryPoints row q = 10) :=
  C3_salary_delta lowSalaryRow salaryOnlyProfile (by decide) (by decide) (by decide) (by decide)

/-- A posting row all of whose nullable fields are null, including the title
list: the shape of a raw row before any list-field defaulting. -/
def allNullRow : Posting :=
  { job_id := "n", work_titles_final := none, found_skills := none,
    seniority_category := none, consulting_status := none, schedule_type := none,
    company_category := none, activity_section_details := none, company_name := none,
    annual_min_salary := none, annual_max_salary := none }

/-- C4 counterexample: on a row whose title list is null and a profile with a
target role, `calculate_match_score` raises (Python `TypeError` from
`title in row['work_titles_final']`) instead of treating the field as
non-matching. -/
theorem C4_counterexample :
    calculate_match_score allNullRow
      { target_roles := ["Data Analyst"], my_skills := [], all_job_info := [],
        all_company_info := [], min_salary := none } = .error () := by decide

/-- The all-null row with its title list replaced by an actual (empty) list. -/
def emptyTitlesRow : Posting :=
  { job_id := "n", work_titles_final := some [], found_skills := none,
    seniority_category := none, consulting_status := none, schedule_type := none,
    company_category := none, activity_section_details := none, company_name := none,
    annual_min_salary := none, annual_max_salary := none }

/-- C4 amended: `calculate_match_score` never raises provided the title-list
field holds an actual list; every other missing or null field is treated as
non-matching: with all nullable fields null and an empty title list the score
is 0 for every profile.  (A null title list raises whenever the profile has
at least one target role.) -/
theorem C4_null_fields_score_zero :
    (∀ (row : Posting) (p : Profile), row.work_titles_final.isSome →
      ∃ s, calculate_match_score row p = .ok s)
    ∧ (∀ p : Profile, calculate_match_score emptyTitlesRow p = .ok 0) := by
  constructor
  · exact fun row p h => ⟨specScore row p, calc_eq_specScore row p h⟩
  · intro p
    rw [calc_eq_specScore emptyTitlesRow p (by decide)]
    have ht : titlePoints emptyTitlesRow p = 0 := by
      unfold titlePoints
      simp [emptyTitlesRow]
    have hs : skillPoints emptyTitlesRow p = 0 := by
      unfold skillPoints
      simp [emptyTitlesRow]
    have hj : jobInfoPoints emptyTitlesRow p = 0 := by
      unfold jobInfoPoints
      simp [emptyTitlesRow, optMem]
    have hc : companyInfoPoints emptyTitlesRow p = 0 := by
      unfold companyInfoPoints
      simp [emptyTitlesRow, optMem]
    have hm : salaryPoints emptyTitlesRow p = 0 := by
      unfold salaryPoints
      cases p.min_salary with
      | none => simp
      | some pref => simp [emptyTitlesRow, salaryGe]
    unfold specScore
    rw [ht, hs, hj, hc, hm]
    exact congrArg Except.ok (by norm_num)

/-- Concrete instantiation of `C4_null_fields_score_zero`. -/
theorem C4_null_fields_score_zero_witness :
    ∃ s, calculate_match_score { emptyTitlesRow with work_titles_final := some ["X"] }
      { target_roles := ["X"], my_skills := [], all_job_info := [],
        all_company_info := [], min_salary := none } = .ok s :=
  C4_null_fields_score_zero.1 _ _ (by decide)

/-! ## Sidebar filter application (src/app.py lines 350-367) -/

/-- The values read from the sidebar widgets, one per filter.  The selectbox
filters carry their sentinel strings; the multiselect filters are lists whose
empty value means no constraint. -/
structure FilterSelection where
  selected_is_consulting : String
  selected_sector_company : String
  selected_category_company : List String
  selected_company : String
  selected_schedule_type : String
  selected_seniority : List String
  selected_work_titles : List String
  deriving Repr, DecidableEq

/-- Filtering by a predicate that can raise: pandas boolean indexing with
`df['work_titles_final'].apply(lambda ...)` evaluates the lambda on every row
and propagates any exception. -/
def filterExc {α : Type} (p : α → Except Unit Bool) : List α → Except Unit (List α)
  | [] => .ok []
  | x :: xs => do
    let b ← p x
    let rest ← filterExc p xs
    pure (if b then x :: rest else rest)

/-- src/app.py lines 351-367: the seven sequential narrowing steps applied to
`df_display`, in source order; each step is skipped when its selection is the
sentinel value or an empty multiselect. -/
def applyDisplayFilters (f : FilterSelection) (source_df : List Posting) :
    Except Unit (List Posting) :=
  let df := source_df
  let df := if !(f.selected_is_consulting == "Include All") then
      df.filter (fun r => r.consulting_status == some f.selected_is_consulting) else df
  let df := if !(f.selected_sector_company == "All sectors") then
      df.filter (fun r => r.activity_section_details == some f.selected_sector_company) else df
  let df := if !(f.selected_category_company.isEmpty) then
      df.filter (fun r => optMem r.company_category f.selected_category_company) else df
  let df := if !(f.selected_company == "All companies") then
      df.filter (fun r => r.company_name == some f.selected_company) else df
  let df := if !(f.selected_schedule_type == "All types") then
      df.filter (fun r => r.schedule_type == some f.selected_schedule_type) else df
  let df := if !(f.selected_seniority.isEmpty) then
      df.filter (fun r => optMem r.seniority_category f.selected_seniority) else df
  if f.selected_work_titles.isEmpty then .ok df
  else filterExc (fun r => pyAnyTitleIn f.selected_work_titles r.work_titles_final) df

/-! ### The per-filter row predicates (spec section 4.2): sentinel or empty
selection means no constraint, singular filters use exact equality,
multiselects use membership or non-empty list intersection. -/

def consultingStep (f : FilterSelection) (r : Posting) : Bool :=
  f.selected_is_consulting == "Include All"
    || r.consulting_status == some f.selected_is_consulting

def sectorStep (f : FilterSelection) (r : Posting) : Bool :=
  f.selected_sector_company == "All sectors"
    || r.activity_section_details == some f.selected_sector_company

def categoryStep (f : FilterSelection) (r : Posting) : Bool :=
  f.selected_category_company.isEmpty
    || optMem r.company_category f.selected_category_company

def companyStep (f : FilterSelection) (r : Posting) : Bool :=
  f.selected_company == "All companies" || r.company_name == some f.selected_company

def scheduleStep (f : FilterSelection) (r : Posting) : Bool :=
  f.selected_schedule_type == "All types" || r.schedule_type == some f.selected_schedule_type

def seniorityStep (f : FilterSelection) (r : Posting) : Bool :=
  f.selected_seniority.isEmpty || optMem r.seniority_category f.selected_seniority

def titlesStep (f : FilterSelection) (r : Posting) : Bool :=
  f.selected_work_titles.isEmpty
    || f.selected_work_titles.any (fun t => (r.work_titles_final.getD []).contains t)

/-- The seven filter predicates in source order. -/
def filterSteps (f : FilterSelection) : List (Posting → Bool) :=
  [consultingStep f, sectorStep f, categoryStep f, companyStep f,
   scheduleStep f, seniorityStep f, titlesStep f]

/-- A row survives the filter block iff it satisfies every active constraint. -/
def matchesAllFilters (f : FilterSelection) (r : Posting) : Bool :=
  (filterSteps f).all (fun p => p r)

/-- A guarded narrowing step equals an unguarded filter whose predicate is
true whenever the guard is off. -/
theorem guard_filter {α : Type} (b : Bool) (p : α → Bool) (l : List α) :
    (if (!b) = true then l.filter p else l) = l.filter (fun r => b || p r) := by
  cases b with
  | false => simp
  | true => simp

theorem filterExc_eq_filter {α : Type} (p : α → Except Unit Bool) (q : α → Bool)
    (l : List α) (h : ∀ x ∈ l, p x = .ok (q x)) :
    filterExc p l = .ok (l.filter q) := by
  induction l with
  | nil => rfl
  | cons x xs ih =>
    have hx := h x (by simp)
    have hxs := ih (fun y hy => h y (by simp [hy]))
    simp only [filterExc, hx, hxs, List.filter_cons, bind, Except.bind]
    cases hq : q x <;> simp [hq, pure, Except.pure]

theorem foldl_filter_eq_filter_all {α : Type} (ps : List (α → Bool)) (l : List α) :
    ps.foldl (fun acc p => acc.filter p) l = l.filter (fun r => ps.all (fun p => p r)) := by
  induction ps generalizing l with
  | nil => simp
  | cons p ps ih =>
    rw [List.foldl_cons, ih, List.filter_filter]
    apply List.filter_congr
    intro r _
    simp [Bool.and_comm]

theorem all_perm_eq {α : Type} (ps qs : List (α → Bool)) (h : ps.Perm qs) (r : α) :
    ps.all (fun p => p r) = qs.all (fun p => p r) := by
  apply Bool.eq_iff_iff.mpr
  simp only [List.all_eq_true]
  constructor <;> intro hh p hp
  · exact hh p (h.mem_iff.mpr hp)
  · exact hh p (h.mem_iff.mp hp)

/-- C5: on any posting table of the data model, the filter block returns
exactly the rows satisfying every active constraint conjunctively (sentinel
or empty selections constrain nothing), and applying the individual filters
in any other order yields the same result. -/
theorem C5_filters_conjunctive_order_free (f : FilterSelection) (source_df : List Posting)
    (h : ∀ r ∈ source_df, r.work_titles_final.isSome) :
    applyDisplayFilters f source_df = .ok (source_df.filter (matchesAllFilters f))
    ∧ ∀ qs : List (Posting → Bool), (filterSteps f).Perm qs →
        qs.foldl (fun acc p => acc.filter p) source_df
          = source_df.filter (matchesAllFilters f) := by
  constructor
  · unfold applyDisplayFilters
    dsimp only
    rw [guard_filter, guard_filter, guard_filter, guard_filter, guard_filter, guard_filter,
      List.filter_filter, List.filter_filter, List.filter_filter, List.filter_filter,
      List.filter_filter]
    cases hE : f.selected_work_titles with
    | nil =>
      simp only [List.isEmpty_nil, if_true]
      congr 1
      apply List.filter_congr
      intro r _
      simp [matchesAllFilters, filterSteps, consultingStep, sectorStep, categoryStep,
        companyStep, scheduleStep, seniorityStep, titlesStep, hE,
        Bool.and_assoc, Bool.and_comm, Bool.and_left_comm]
    | cons t ts =>
      simp only [List.isEmpty_cons, if_false, Bool.false_eq_true]
      rw [filterExc_eq_filter _
        (fun r => (t :: ts).any fun x => (r.work_titles_final.getD []).contains x)]
      · rw [List.filter_filter]
        congr 1
        apply List.filter_congr
        intro r _
        simp [matchesAllFilters, filterSteps, consultingStep, sectorStep, categoryStep,
          companyStep, scheduleStep, seniorityStep, titlesStep, hE,
          Bool.and_assoc, Bool.and_comm, Bool.and_left_comm]
      · intro x hx
        have hxs : x ∈ source_df := by
          have := List.mem_filter.mp hx
          exact this.1
        obtain ⟨ts2, hts2⟩ := Option.isSome_iff_exists.mp (h x hxs)
        rw [hts2]
        simp [pyAnyTitleIn]
  · intro qs hq
    rw [foldl_filter_eq_filter_all]
    apply List.filter_congr
    intro r _
    exact (all_perm_eq (filterSteps f) qs hq r).symm

/-- Concrete instantiation of `C5_filters_conjunctive_order_free` on a
one-row table with an active consulting filter. -/
theorem C5_filters_witness :
    applyDisplayFilters
      { selected_is_consulting := "Consulting", selected_sector_company := "All sectors",
        selected_category_company := [], selected_company := "All companies",
        selected_schedule_type := "All types", selected_seniority := [],
        selected_work_titles := ["Data Analyst"] }
      [emptyTitlesRow]
    = .ok ([emptyTitlesRow].filter (matchesAllFilters
      { selected_is_consulting := "Consulting", selected_sector_company := "All sectors",
        selected_category_company := [], selected_company := "All companies",
        selected_schedule_type := "All types", selected_seniority := [],
        selected_work_titles := ["Data Analyst"] })) :=
  (C5_filters_conjunctive_order_free _ _ (by decide)).1

/-! ## Editable-grid reconciliation (src/app.py lines 540-630) -/

/-- A calendar date (`datetime.date`). -/
structure Date where
  year : Nat
  month : Nat
  day : Nat
  deriving Repr, DecidableEq

/-- A row of the cached editable copy (`st.session_state.df_editor_state`) or
of the UI-returned edited copy, restricted to the fields the reconciliation
reads: the join key and the three tracker columns. -/
structure EditorRow where
  job_id : String
  status : Option String
  contact_date : Option Date
  notes : Option String
  deriving Repr, DecidableEq

/-- src/app.py lines 607-608: a null status is compared as the empty string
(`row['status'] if pd.notna(...) else ""`). -/
def statusText (o : Option String) : String := o.getD ""

/-- src/app.py lines 606-610, the per-row body of the edit-detection loop:
when the status newly equals "Contacted" the contact date is forced to today,
otherwise the edited row is kept as supplied by the UI. -/
def adjustRow (today : Date) (original row : EditorRow) : EditorRow :=
  if statusText row.status == "Contacted" && !(statusText original.status == "Contacted") then
    { row with contact_date := some today }
  else row

/-- src/app.py lines 602-611: iterate the edited copy by index; a row whose
index also exists in the cached copy is adjusted against its cached original,
any extra row is kept unchanged. -/
def applyEditDetection (today : Date) : List EditorRow → List EditorRow → List EditorRow
  | _, [] => []
  | [], row :: etail => row :: applyEditDetection today [] etail
  | original :: ctail, row :: etail =>
    adjustRow today original row :: applyEditDetection today ctail etail

theorem applyEditDetection_getElem (today : Date) (cached edited : List EditorRow)
    (i : Nat) (orig row : EditorRow)
    (hc : cached[i]? = some orig) (he : edited[i]? = some row) :
    (applyEditDetection today cached edited)[i]? = some (adjustRow today orig row) := by
  induction edited generalizing cached i with
  | nil => simp at he
  | cons row0 etail ih =>
    cases cached with
    | nil => simp at hc
    | cons orig0 ctail =>
      cases i with
      | zero =>
        simp only [List.getElem?_cons_zero, Option.some_inj] at hc he
        subst hc; subst he
        simp [applyEditDetection]
      | succ n =>
        simp only [List.getElem?_cons_succ] at hc he
        simpa [applyEditDetection] using ih ctail n hc he

/-- C6: in the edit-detection step, a row whose status newly equals
"Contacted" (and was not "Contacted" in the cached copy) gets its contact
date forced to today, overriding whatever the edit UI supplied; a row going
from "Contacted" to "Refused" is kept exactly as edited, so its contact date
is untouched, not cleared. -/
theorem C6_contact_date_rules (today : Date) (cached edited : List EditorRow)
    (i : Nat) (orig row : EditorRow)
    (hc : cached[i]? = some orig) (he : edited[i]? = some row) :
    (applyEditDetection today cached edited)[i]? = some (adjustRow today orig row)
    ∧ (row.status = some "Contacted" → orig.status ≠ some "Contacted" →
        (adjustRow today orig row).contact_date = some today)
    ∧ (orig.status = some "Contacted" → row.status = some "Refused" →
        adjustRow today orig row = row) := by
  refine ⟨applyEditDetection_getElem today cached edited i orig row hc he, ?_, ?_⟩
  · intro h1 h2
    have hrow : statusText row.status = "Contacted" := by rw [h1]; rfl
    have horig : (statusText orig.status == "Contacted") = false := by
      cases ho : orig.status with
      | none => rfl
      | some s =>
        have hs : s ≠ "Contacted" := fun hh => h2 (by rw [ho, hh])
        simp only [statusText, Option.getD_some]
        exact beq_eq_false_iff_ne.mpr hs
    unfold adjustRow
    rw [hrow, horig]
    simp
  · intro h1 h2
    unfold adjustRow
    rw [h2]
    simp [statusText]

/-- Concrete instantiation of `C6_contact_date_rules` at index 0: a null
status edited to "Contacted". -/
theorem C6_contact_date_rules_witness :
    (applyEditDetection { year := 2026, month := 10, day := 12 }
        [{ job_id := "j", status := none, contact_date := none, notes := none }]
        [{ job_id := "j", status := some "Contacted", contact_date := none, notes := none }])[0]?
      = some (adjustRow { year := 2026, month := 10, day := 12 }
        { job_id := "j", status := none, contact_date := none, notes := none }
        { job_id := "j", status := some "Contacted", contact_date := none, notes := none })
    ∧ (adjustRow { year := 2026, month := 10, day := 12 }
        { job_id := "j", status := none, contact_date := none, notes := none }
        { job_id := "j", status := some "Contacted", contact_date := none, notes := none }).contact_date
      = some { year := 2026, month := 10, day := 12 } := by
  obtain ⟨ha, hb, _⟩ := C6_contact_date_rules
    { year := 2026, month := 10, day := 12 }
    [{ job_id := "j", status := none, contact_date := none, notes := none }]
    [{ job_id := "j", status := some "Contacted", contact_date := none, notes := none }]
    0 _ _ rfl rfl
  exact ⟨ha, hb rfl (by decide)⟩

/-! ## Saving progress (src/app.py lines 614-630) -/

/-- One record of the upsert payload sent to the `tracker` table. -/
structure TrackerRecord where
  job_id : String
  status : String
  contact_date : Option String
  notes : Option String
  user_id : String
  deriving Repr, DecidableEq

/-- The outcome of a save: the records transmitted and the conflict key of the
upsert. -/
structure SavePayload where
  records : List TrackerRecord
  on_conflict : String
  deriving Repr, DecidableEq

/-- Zero-pad to two digits, as `strftime` does for months and days. -/
def pad2 (n : Nat) : String := if n < 10 then "0" ++ toString n else toString n

/-- `strftime('%Y-%m-%d')` (years here are four-digit). -/
def dateToText (d : Date) : String :=
  toString d.year ++ "-" ++ pad2 d.month ++ "-" ++ pad2 d.day

/-- src/app.py lines 614-630, the "Save My Progress to Supabase" handler:
without an authenticated session nothing is persisted (a login warning is
shown); with one, the cached copy is restricted to rows with a non-null
status (`dropna(subset=['status'])`), tagged with the user id, dates are
serialized to `%Y-%m-%d` text and remaining nulls normalized to `None`, and
the records are upserted with `on_conflict="job_id,user_id"`. -/
def saveMyProgress (sessionUserId : Option String) (df_editor_state : List EditorRow) :
    Option SavePayload :=
  match sessionUserId with
  | none => none
  | some uid =>
    some { records := df_editor_state.filterMap (fun r =>
             match r.status with
             | none => none
             | some s => some { job_id := r.job_id, status := s,
                                contact_date := r.contact_date.map dateToText,
                                notes := r.notes, user_id := uid }),
           on_conflict := "job_id,user_id" }

/-- C7 counterexample: a cached row with a non-null status, in an
unauthenticated session, is not persisted at all (the claim says it would be
upserted keyed by the posting id alone). -/
theorem C7_counterexample :
    (some "Contacted" : Option String).isSome = true
    ∧ saveMyProgress none
        [{ job_id := "j9", status := some "Contacted", contact_date := none, notes := none }]
      = none :=
  ⟨rfl, rfl⟩

/-- The record transmitted for one kept row of the cached copy. -/
def serializeTrackerRow (uid : String) (r : EditorRow) : TrackerRecord :=
  { job_id := r.job_id, status := statusText r.status,
    contact_date := r.contact_date.map dateToText,
    notes := r.notes, user_id := uid }

/-- The prepared upsert payload equals: keep exactly the rows with a non-null
status, then serialize each. -/
theorem filterMap_serialize (uid : String) (st : List EditorRow) :
    st.filterMap (fun r =>
      match r.status with
      | none => none
      | some s => some { job_id := r.job_id, status := s,
                         contact_date := r.contact_date.map dateToText,
                         notes := r.notes, user_id := uid })
    = (st.filter (fun r => r.status.isSome)).map (serializeTrackerRow uid) := by
  induction st with
  | nil => rfl
  | cons r rest ih =>
    cases hs : r.status with
    | none => simpa [List.filterMap_cons, List.filter_cons, hs] using ih
    | some s =>
      rw [List.filterMap_cons, List.filter_cons, hs]
      simp only [Option.isSome_some, if_true, List.map_cons]
      rw [ih]
      simp [serializeTrackerRow, statusText, hs]

/-- C7 amended: on save, an unauthenticated session persists nothing; an
authenticated one upserts, keyed by (posting id, user id), exactly the cached
rows with a non-null status, with the user id attached, contact dates
serialized to `YYYY-MM-DD` text and nulls kept as nulls. -/
theorem C7_save_rows (uid : String) (st : List EditorRow) :
    saveMyProgress none st = none
    ∧ saveMyProgress (some uid) st
      = some { records := (st.filter (fun r => r.status.isSome)).map (serializeTrackerRow uid),
               on_conflict := "job_id,user_id" }
    ∧ dateToText { year := 2026, month := 3, day := 7 } = "2026-03-07" := by
  refine ⟨rfl, ?_, rfl⟩
  unfold saveMyProgress
  dsimp only
  rw [filterMap_serialize]

/-! ## Editor-cache refresh (src/app.py lines 550-556 and 562-572) -/

/-- src/app.py lines 551-556: left join of the filtered/scored postings with
the tracker table on `job_id` (`pd.merge(..., on="job_id", how="left")`);
where no tracker record matches, status, contact date and notes default to
null.  The tracker table is keyed by job id, so first-match lookup models the
merge. -/
def leftJoinTracker (postings : List Posting) (tracker : List EditorRow) : List EditorRow :=
  postings.map fun pst =>
    match tracker.find? (fun t => t.job_id == pst.job_id) with
    | some t => { job_id := pst.job_id, status := t.status,
                  contact_date := t.contact_date, notes := t.notes }
    | none => { job_id := pst.job_id, status := none, contact_date := none, notes := none }

/-- The two session-state slots the refresh step reads and writes:
`st.session_state.df_editor_state` (absent on first load) and
`st.session_state.last_profile`. -/
structure EditorCache where
  df_editor_state : Option (List EditorRow)
  last_profile : Profile
  deriving Repr, DecidableEq

def idList (rows : List EditorRow) : List String := rows.map (fun r => r.job_id)

/-- Python `set(a) == set(b)` on the id columns. -/
def sameIdSet (a b : List String) : Bool :=
  a.all (fun x => b.contains x) && b.all (fun x => a.contains x)

/-- src/app.py lines 562-572: the cached editable copy is replaced by the
fresh `df_prepared` when the cache slot is absent (`try/except` producing the
empty id set and the `not in st.session_state` test), when the cached id set
differs from the filtered id set, or when the profile changed since the last
cache; otherwise both slots are kept. -/
def refreshEditorState (cache : EditorCache) (df_prepared : List EditorRow)
    (profile : Profile) : EditorCache :=
  let profile_has_changed : Bool := decide (profile ≠ cache.last_profile)
  let current_ids := match cache.df_editor_state with
    | some rows => idList rows
    | none => []
  let filters_have_changed : Bool := !(sameIdSet current_ids (idList df_prepared))
  if cache.df_editor_state.isNone || filters_have_changed || profile_has_changed then
    { df_editor_state := some df_prepared, last_profile := profile }
  else cache

theorem sameIdSet_refl (a : List String) : sameIdSet a a = true := by
  simp [sameIdSet, List.all_eq_true]

/-- C8: the refresh step replaces the cache by the fresh left-join result
exactly when the cache is absent, the cached id set differs from the filtered
view, or the profile changed; otherwise it keeps the cache — so after every
render the cached id set equals the filtered view id set; and the left join
defaults the tracker fields to null where no tracker record matches. -/
theorem C8_cache_refresh (cache : EditorCache) (df_prepared : List EditorRow)
    (profile : Profile) :
    (∃ rows, (refreshEditorState cache df_prepared profile).df_editor_state = some rows
      ∧ sameIdSet (idList rows) (idList df_prepared) = true)
    ∧ ((cache.df_editor_state = none
          ∨ (∃ rows, cache.df_editor_state = some rows
              ∧ sameIdSet (idList rows) (idList df_prepared) = false)
          ∨ profile ≠ cache.last_profile) →
        refreshEditorState cache df_prepared profile
          = { df_editor_state := some df_prepared, last_profile := profile })
    ∧ (∀ rows, cache.df_editor_state = some rows →
        sameIdSet (idList rows) (idList df_prepared) = true →
        profile = cache.last_profile →
        refreshEditorState cache df_prepared profile = cache)
    ∧ (∀ (postings : List Posting) (tracker : List EditorRow), ∀ pst ∈ postings,
        tracker.find? (fun t => t.job_id == pst.job_id) = none →
        { job_id := pst.job_id, status := none, contact_date := none, notes := none }
          ∈ leftJoinTracker postings tracker) := by
  refine ⟨?_, ?_, ?_, ?_⟩
  · unfold refreshEditorState
    dsimp only
    split
    · exact ⟨df_prepared, rfl, sameIdSet_refl _⟩
    · rename_i hcond
      rw [Bool.or_eq_true, Bool.or_eq_true] at hcond
      push_neg at hcond
      obtain ⟨⟨hsome, hfil⟩, _⟩ := hcond
      cases hst : cache.df_editor_state with
      | none => rw [hst] at hsome; simp at hsome
      | some rows =>
        refine ⟨rows, rfl, ?_⟩
        rw [hst] at hfil
        simpa using hfil
  · intro hcond
    unfold refreshEditorState
    dsimp only
    rw [if_pos]
    rcases hcond with h | ⟨rows, hrows, hdiff⟩ | h
    · rw [h]
      rfl
    · rw [hrows]
      simp [hdiff]
    · simp [h]
  · intro rows hrows hsame heq
    unfold refreshEditorState
    dsimp only
    rw [if_neg]
    rw [hrows]
    simp [hsame, heq]
  · intro postings tracker pst hmem hfind
    unfold leftJoinTracker
    refine List.mem_map.mpr ⟨pst, hmem, ?_⟩
    rw [hfind]

/-- Concrete instantiation of `C8_cache_refresh`: a first render (no cache)
replaces the cache with the prepared frame. -/
theorem C8_cache_refresh_witness :
    refreshEditorState
      { df_editor_state := none,
        last_profile := { target_roles := [], my_skills := [], all_job_info := [],
                          all_company_info := [], min_salary := none } }
      [{ job_id := "j", status := none, contact_date := none, notes := none }]
      { target_roles := [], my_skills := [], all_job_info := [],
        all_company_info := [], min_salary := none }
    = { df_editor_state :=
          some [{ job_id := "j", status := none, contact_date := none, notes := none }],
        last_profile := { target_roles := [], my_skills := [], all_job_info := [],
                          all_company_info := [], min_salary := none } } :=
  (C8_cache_refresh _ _ _).2.1 (Or.inl rfl)

/-! ## Extraction script: company-name cleaning
(src/scripts/extraction.py lines 50-102) -/

/-- A Python value as passed to the cleaning functions: a string, or a
non-string (number, `None`, `NaN`). -/
inductive PyValue where
  | pstr (s : String)
  | pint (n : Int)
  | pnone
  deriving Repr, DecidableEq

/-- A regex word character (`\w`), over the ASCII range. -/
def isWordChar (c : Char) : Bool := c.isAlphanum || c == '_'

def wordAt : Option Char → Bool
  | some c => isWordChar c
  | none => false

/-- A regex word boundary (`\b`) between two adjacent positions: exactly one
side is a word character (the ends of the text count as non-word). -/
def isBoundary (prev next : Option Char) : Bool := wordAt prev != wordAt next

/-- Does `\b term \b` match at the current position, whose preceding
character is `prev` and remaining text is `s`? -/
def wbMatch (term : List Char) (prev : Option Char) (s : List Char) : Bool :=
  term.isPrefixOf s
    && isBoundary prev s.head?
    && isBoundary term.getLast? (s.drop term.length).head?

/-- The scan of one `re.sub(r'\b' + re.escape(term) + r'\b', '', text)` pass:
left to right over the original text, removing each non-overlapping match.
Match positions refer to the original string, so after a removal the
preceding character is the last character of the removed occurrence.  The
fuel is an upper bound on the scan steps (each consumes at least one
character for the non-empty terms used here). -/
def subWBGo (term : List Char) : Nat → Option Char → List Char → List Char
  | 0, _, s => s
  | _ + 1, _, [] => []
  | fuel + 1, prev, c :: rest =>
    if wbMatch term prev (c :: rest) then
      subWBGo term fuel term.getLast? ((c :: rest).drop term.length)
    else
      c :: subWBGo term fuel (some c) rest

def subWB (term : String) (s : List Char) : List Char :=
  subWBGo term.toList (s.length + 1) none s

/-- The noise terms of src/scripts/extraction.py lines 56-60.  Each pattern
source is passed through `re.escape` before compilation, so it matches the
term text literally; the two raw-string entries therefore match text
containing literal backslashes.  (`flags=re.IGNORECASE` is immaterial: the
text has been lower-cased and the terms are lower-case.) -/
def terms_to_remove : List String :=
  ["jobs", "digital", "en", "fonctions centrales", "france", "recrutement",
   "| b corp™", "sas", "s.a.s.", "gmbh", "limited", "nv", "epic", "groupe",
   "h/f", "\\(siège\\)", "\\| groupe edg", "corporate & institutional banking"]

/-- src/scripts/extraction.py lines 61-62: the sequential word-bounded
removal of every noise term. -/
def removeTerms (s : List Char) : List Char :=
  terms_to_remove.foldl (fun acc term => subWB term acc) s

def separators : List Char := ['-', '|', '(', ',']

/-- src/scripts/extraction.py lines 64-67: for each separator in turn, keep
only the part before its first occurrence (`clean_name.split(sep)[0]`). -/
def truncateSeps (s : List Char) : List Char :=
  separators.foldl
    (fun acc sep => if acc.contains sep then acc.takeWhile (fun c => c != sep) else acc) s

/-- Python `str.strip()` (ASCII whitespace). -/
def stripEnds (s : List Char) : List Char :=
  ((s.dropWhile Char.isWhitespace).reverse.dropWhile Char.isWhitespace).reverse

/-- Python `str.title()` over ASCII letters: a letter is uppercased when it
follows a non-letter and lowercased otherwise. -/
def titleCase : Bool → List Char → List Char
  | _, [] => []
  | prevAlpha, c :: rest =>
    (if c.isAlpha then (if prevAlpha then c.toLower else c.toUpper) else c)
      :: titleCase c.isAlpha rest

/-- src/scripts/extraction.py lines 50-70, `clean_company_name`: `None` for a
non-string; the exact name "EY" (after stripping) maps to "EY " with a
trailing space; otherwise lower-case, remove the noise terms with word
boundaries, truncate at the separators, strip and title-case, and fall back
to the original name when the cleaned result is shorter than 3 characters.
(Unicode case mapping is modelled over ASCII.) -/
def clean_company_name : PyValue → Option String
  | .pstr name =>
    if String.mk (stripEnds name.toList) == "EY" then some "EY "
    else
      let clean1 := name.toList.map Char.toLower
      let clean2 := removeTerms clean1
      let clean3 := truncateSeps clean2
      let clean4 := titleCase false (stripEnds clean3)
      if clean4.length < 3 then some name else some (String.mk clean4)
  | _ => none

/-- The pipeline as the claim words it: the truncation keeps the prefix
before the first occurrence of any separator. -/
def specCleanName : PyValue → Option String
  | .pstr name =>
    if String.mk (stripEnds name.toList) == "EY" then some "EY "
    else
      let cleaned := titleCase false (stripEnds
        ((removeTerms (name.toList.map Char.toLower)).takeWhile
          (fun c => !(separators.contains c))))
      if cleaned.length < 3 then some name else some (String.mk cleaned)
  | _ => none

theorem takeWhile_bne_of_not_contains (sep : Char) (s : List Char)
    (h : s.contains sep = false) : s.takeWhile (fun c => c != sep) = s := by
  have hmem : sep ∉ s := by
    have h2 : List.elem sep s = false := h
    rw [List.elem_eq_mem] at h2
    exact of_decide_eq_false h2
  rw [List.takeWhile_eq_self_iff]
  intro a ha
  simp only [bne_iff_ne]
  intro hh
  subst hh
  exact hmem ha

/-- One `split(sep)[0]` step always truncates at the first occurrence of the
separator, whether or not the separator occurs. -/
theorem splitStep_eq (sep : Char) (s : List Char) :
    (if s.contains sep then s.takeWhile (fun c => c != sep) else s)
      = s.takeWhile (fun c => c != sep) := by
  by_cases h : s.contains sep = true
  · rw [if_pos h]
  · rw [Bool.not_eq_true] at h
    rw [if_neg (by rw [h]; simp), takeWhile_bne_of_not_contains sep s h]

theorem takeWhile_takeWhile_and (p q : Char → Bool) (s : List Char) :
    (s.takeWhile p).takeWhile q = s.takeWhile (fun c => p c && q c) := by
  induction s with
  | nil => rfl
  | cons c cs ih =>
    by_cases hp : p c
    · by_cases hq : q c <;> simp [List.takeWhile_cons, hp, hq, ih]
    · simp [List.takeWhile_cons, hp]

theorem not_contains_seps (c : Char) :
    (!(separators.contains c))
      = ((c != '-') && ((c != '|') && ((c != '(') && (c != ',')))) := by
  apply Bool.eq_iff_iff.mpr
  simp [separators]

/-- The four sequential `split(sep)[0]` steps truncate at the first
occurrence of any of the four separators. -/
theorem truncateSeps_eq_takeWhile (s : List Char) :
    truncateSeps s = s.takeWhile (fun c => !(separators.contains c)) := by
  unfold truncateSeps separators
  simp only [List.foldl_cons, List.foldl_nil]
  rw [splitStep_eq, splitStep_eq, splitStep_eq, splitStep_eq,
    takeWhile_takeWhile_and, takeWhile_takeWhile_and, takeWhile_takeWhile_and]
  have hp : (fun c => (c != '-') && ((c != '|') && ((c != '(') && (c != ','))))
      = (fun c => !(separators.contains c)) := by
    funext c
    rw [not_contains_seps]
  rw [hp]
  rfl

/-- C9: `clean_company_name` maps (whitespace-trimmed) "EY" to "EY " with a
trailing space, and on every other string lower-cases, removes the noise
terms with word-boundary matching, truncates at the first occurrence of any
separator, strips and title-cases the remainder, and returns the original
name when the cleaned result is under 3 characters; non-strings map to null. -/
theorem C9_clean_company_name (v : PyValue) :
    clean_company_name v = specCleanName v
    ∧ clean_company_name (.pstr " EY ") = some "EY " := by
  constructor
  · cases v with
    | pint n => rfl
    | pnone => rfl
    | pstr name =>
      unfold clean_company_name specCleanName
      dsimp only
      rw [truncateSeps_eq_takeWhile]
  · decide

/-- Concrete instantiation of `C9_clean_company_name` (the refinement holds
at a name exercising the noise-term removal and separator truncation). -/
theorem C9_clean_company_name_witness :
    clean_company_name (.pstr "acme digital - lyon")
      = specCleanName (.pstr "acme digital - lyon")
    ∧ clean_company_name (.pstr " EY ") = some "EY " :=
  C9_clean_company_name (.pstr "acme digital - lyon")

/-- A candidate record returned by the registry API; only the employee-count
bracket is relevant to the selection logic. -/
structure CompanyRecord where
  tranche_effectif_salarie : Option String
  deriving Repr, DecidableEq

/-- src/scripts/extraction.py lines 72-102, `get_company_info`: the name is
cleaned first, and a falsy cleaned name (`None` for non-strings, or the empty
string) short-circuits to `None` with no HTTP request.  The network call and
best-candidate selection (lines 77-102) are I/O, abstracted as an oracle from
the query string to the selected record (`none` models request failure, an
error response, or no results).  The second component records whether a
request was issued. -/
def get_company_info (api : String → Option CompanyRecord) (company_name : PyValue) :
    Option CompanyRecord × Bool :=
  match clean_company_name company_name with
  | none => (none, false)
  | some cleaned => if cleaned == "" then (none, false) else (api cleaned, true)

/-- C10: on every non-string input (a number or None), `clean_company_name`
returns null, and `get_company_info` returns null without issuing any
registry request. -/
theorem C10_nonstring_returns_none (api : String → Option CompanyRecord) (n : Int) :
    clean_company_name (.pint n) = none
    ∧ clean_company_name .pnone = none
    ∧ get_company_info api (.pint n) = (none, false)
    ∧ get_company_info api .pnone = (none, false) :=
  ⟨rfl, rfl, rfl, rfl⟩
